import Mathlib

/-!
Verification of the Sovereign Mind MCP Gateway (src/app.py) against its
natural-language specification.

The development is a shallow embedding of the gateway's pure request-processing
core: Python dicts become association lists (insertion-ordered, as CPython
dicts are), JSON values become the inductive `Json`, the network is an oracle
passed in as a function (`Ctx`), and each handler of app.py becomes a Lean
function returning its reply together with the list of observable effects
(HTTP POSTs issued, catalog refreshes run).
-/

/-- A JSON value as produced by Python's `json.loads`: `None`, booleans,
numbers (the gateway only ever builds and inspects integers; floats do not
occur in any modelled code path), strings, lists and insertion-ordered
dicts. -/
inductive Json where
  | null
  | bool (b : Bool)
  | num (n : Int)
  | str (s : String)
  | arr (xs : List Json)
  | obj (kvs : List (String × Json))

/-- Python `d[k]` / first binding of key `k` in an object (CPython dicts hold
each key once; the model keeps the first binding, which `dictInsert` below
maintains as the unique one). `none` for a missing key or a non-object. -/
def jGet (j : Json) (k : String) : Option Json :=
  match j with
  | .obj kvs => lookupKvs kvs
  | _ => none
where lookupKvs : List (String × Json) → Option Json
  | [] => none
  | (k', v) :: rest => if k' = k then some v else lookupKvs rest

/-- Python `d.get(k, dflt)`.  (CPython raises `AttributeError` when `d` is not
a dict; every modelled call site receives a dict, so the model totalises the
non-object case to the default.) -/
def jGetD (j : Json) (k : String) (dflt : Json) : Json :=
  (jGet j k).getD dflt

/-- Python truthiness of a JSON value: `None`, `False`, `0`, `""`, `[]` and
`{}` are falsy, everything else truthy. -/
def pyTruthy : Json → Bool
  | .null => false
  | .bool b => b
  | .num n => n != 0
  | .str s => s != ""
  | .arr xs => !xs.isEmpty
  | .obj kvs => !kvs.isEmpty

/-- Python `k in d` for the membership tests the gateway performs on parsed
response envelopes: key membership for dicts, element equality against the
string for lists.  (On a number CPython would raise `TypeError`, which the
surrounding `try` of `handle_tools_call` turns into an error envelope; no
modelled claim reaches that case.) -/
def pyIn (k : String) : Json → Bool
  | .obj kvs => kvs.any (fun kv => kv.1 = k)
  | .arr xs => xs.any (fun x => match x with | .str s => s = k | _ => false)
  | _ => false

/-- Python `str.split(sep)` for a one-character separator, on the character
list of the string: keeps empty pieces, `"".split` is `[""]`. -/
def pySplit (sep : Char) : List Char → List (List Char)
  | [] => [[]]
  | c :: cs =>
      if c = sep then [] :: pySplit sep cs
      else
        match pySplit sep cs with
        | [] => [[c]]
        | l :: ls => (c :: l) :: ls

/-- Python `line.startswith(pre)` on character lists. -/
def leadsWith : List Char → List Char → Bool
  | [], _ => true
  | _ :: _, [] => false
  | a :: pre, b :: l => a = b && leadsWith pre l

/-- `parse_sse_response` (src/app.py:191-198), generic in the JSON decoder
`loads` (Python's `json.loads`, an external library function): split the body
on newlines, return the parse of the first `"data: "` line whose remainder
`loads` accepts, skipping lines that do not start with `"data: "` and data
lines that fail to parse; `none` when no line yields a value. -/
def parse_sse_response {J : Type} (loads : String → Option J) (text : String) : Option J :=
  scanLines (pySplit '\n' text.toList)
where scanLines : List (List Char) → Option J
  | [] => none
  | line :: rest =>
      if leadsWith "data: ".toList line then
        match loads (String.mk (line.drop 6)) with
        | some v => some v
        | none => scanLines rest
      else scanLines rest

/-! ### Python string helpers used by the gateway's handlers -/

/-- Python `s.replace(chr(39), chr(39)+chr(39))` (src/app.py:380): double every
single quote.  This is the only escaping the gateway ever applies. -/
def pyEscape (s : String) : String :=
  String.mk (s.toList.foldr (fun c acc => if c = '\'' then '\'' :: '\'' :: acc else c :: acc) [])

mutual

/-- Python `repr` of a JSON-shaped value, as CPython prints it inside
f-strings for lists and dicts (`repr`'s escaping of quotes and backslashes
inside string reprs is elided; no modelled claim formats such a value). -/
def pyRepr : Json → String
  | .null => "None"
  | .bool true => "True"
  | .bool false => "False"
  | .num n => toString n
  | .str s => "'" ++ s ++ "'"
  | .arr xs => "[" ++ pyReprSeq xs ++ "]"
  | .obj kvs => "\x7b" ++ pyReprKvs kvs ++ "\x7d"

/-- `", ".join(repr(x) for x in xs)`. -/
def pyReprSeq : List Json → String
  | [] => ""
  | [x] => pyRepr x
  | x :: y :: rest => pyRepr x ++ ", " ++ pyReprSeq (y :: rest)

/-- `", ".join(f"rep(k): rep(v)")` for dict items. -/
def pyReprKvs : List (String × Json) → String
  | [] => ""
  | [(k, v)] => "'" ++ k ++ "': " ++ pyRepr v
  | (k, v) :: x :: rest => "'" ++ k ++ "': " ++ pyRepr v ++ ", " ++ pyReprKvs (x :: rest)

end

/-- Python `str(x)` / f-string interpolation of a JSON-shaped value: identity
on strings, `repr`-style on containers and scalars. -/
def pyFormat : Json → String
  | .str s => s
  | j => pyRepr j

/-- The escaping Python's `json.dumps` applies inside string literals
(`ensure_ascii` transliteration of non-ASCII and `\uXXXX` forms for other
control characters are elided; no modelled claim serializes such values). -/
def jsonEscapeString (s : String) : String :=
  String.mk (s.toList.foldr
    (fun c acc =>
      if c = '"' then '\\' :: '"' :: acc
      else if c = '\\' then '\\' :: '\\' :: acc
      else if c = '\n' then '\\' :: 'n' :: acc
      else if c = '\t' then '\\' :: 't' :: acc
      else if c = '\r' then '\\' :: 'r' :: acc
      else c :: acc) [])

mutual

/-- Python `json.dumps` with its default separators `", "` and `": "`
(src/app.py:378-379 serializes the `tags` and `details` arguments this way). -/
def jsonDumps : Json → String
  | .null => "null"
  | .bool true => "true"
  | .bool false => "false"
  | .num n => toString n
  | .str s => "\"" ++ jsonEscapeString s ++ "\""
  | .arr xs => "[" ++ jsonDumpsSeq xs ++ "]"
  | .obj kvs => "\x7b" ++ jsonDumpsKvs kvs ++ "\x7d"

def jsonDumpsSeq : List Json → String
  | [] => ""
  | [x] => jsonDumps x
  | x :: y :: rest => jsonDumps x ++ ", " ++ jsonDumpsSeq (y :: rest)

def jsonDumpsKvs : List (String × Json) → String
  | [] => ""
  | [(k, v)] => "\"" ++ jsonEscapeString k ++ "\": " ++ jsonDumps v
  | (k, v) :: x :: rest =>
      "\"" ++ jsonEscapeString k ++ "\": " ++ jsonDumps v ++ ", " ++ jsonDumpsKvs (x :: rest)

end

/-- Python `sep.join(parts)`. -/
def joinSep (sep : String) : List String → String
  | [] => ""
  | [x] => x
  | x :: y :: rest => x ++ sep ++ joinSep sep (y :: rest)

/-- Python `s.upper()`, character by character (identical to CPython on the
ASCII prefixes the configuration uses). -/
def pyUpper (s : String) : String := String.mk (s.toList.map Char.toUpper)

/-! ### CPython dicts as insertion-ordered association lists -/

/-- `d.get(k)` / `d[k]` on an insertion-ordered dict: the binding of `k`
(unique, maintained by `dictInsert`). -/
def dictLookup {α : Type} (k : String) : List (String × α) → Option α
  | [] => none
  | (k', v) :: rest => if k' = k then some v else dictLookup k rest

/-- `d[k] = v` on a CPython dict: an existing key keeps its position and gets
the new value, a new key is appended.  (The model replaces the first binding
of the key; dicts built by `dictInsert` alone hold each key at most once, so
this is exactly CPython's behavior.) -/
def dictInsert {α : Type} (k : String) (v : α) : List (String × α) → List (String × α)
  | [] => [(k, v)]
  | (k', v') :: rest => if k' = k then (k, v) :: rest else (k', v') :: dictInsert k v rest

/-! ### The gateway's data model (src/app.py:32-347) -/

/-- One entry of `BACKEND_MCPS` (src/app.py:32-189).  `timeout` is `none`
where the config dict has no `"timeout"` key (the source defaults it per use
site: 30 s for the `tools/list` burst, 60 s for an entry's call timeout). -/
structure BackendConfig where
  url : String
  pfx : String
  descr : String
  enabled : Bool
  transport : String
  priority : Nat
  health_check : Bool
  timeout : Option Nat
  headers : List (String × String)
  alt_url : Option String

/-- The `schema` sub-dict a refresh builds for each tool (src/app.py:275-279). -/
structure ToolSchema where
  name : String
  description : String
  inputSchema : Json

/-- One value of `catalog.tools` (src/app.py:268-280). -/
structure Entry where
  backend : String
  backend_url : String
  original_name : String
  transport : String
  headers : List (String × String)
  timeout : Nat
  schema : ToolSchema

/-- One value of `catalog.backend_health` (src/app.py:237 etc.). -/
structure HealthRec where
  status : String
  tools : Nat
  error : Option String

/-- The mutable fields of `ToolCatalog` (src/app.py:200-205), with wall-clock
instants modelled as whole seconds (`datetime.now()` readings). -/
structure GatewayState where
  tools : List (String × Entry)
  backend_health : List (String × HealthRec)
  last_refresh : Option Nat

/-- `ToolCatalog.refresh_interval` (src/app.py:205). -/
def refresh_interval : Nat := 300

/-- The `seconds` component of a Python `timedelta` holding a nonnegative
whole-second duration: `datetime` normalizes a duration into days plus a
second count below one day, so `.seconds` is the duration mod 86400 —
not the total elapsed seconds. -/
def tdSecondsComponent (elapsed : Nat) : Nat := elapsed % 86400

/-- `ToolCatalog.needs_refresh` (src/app.py:207-210): true when no refresh has
run, else when the **seconds component** of `now - last_refresh` exceeds
`refresh_interval`. -/
def needs_refresh (last_refresh : Option Nat) (now : Nat) : Bool :=
  match last_refresh with
  | none => true
  | some t => tdSecondsComponent (now - t) > refresh_interval

/-- Stable insertion (after all elements of key ≤) used to model Python's
stable ascending `sorted(..., key=lambda x: x[1].get("priority", 99))`
(src/app.py:231-234). -/
def insortBackend (x : String × BackendConfig) :
    List (String × BackendConfig) → List (String × BackendConfig)
  | [] => [x]
  | y :: ys => if y.2.priority ≤ x.2.priority then y :: insortBackend x ys else x :: y :: ys

/-- Python's `sorted` (stable, ascending by the key) on the backend list. -/
def pySortedByPriority (l : List (String × BackendConfig)) : List (String × BackendConfig) :=
  l.foldl (fun acc x => insortBackend x acc) []

/-- The upstream reply to the `tools/list` POST a refresh issues per backend
(src/app.py:249-254): an HTTP response, a timeout, or another raised
`httpx` error. -/
inductive ListResp where
  | ok (status : Nat) (text : String)
  | timeout
  | error (msg : String)

/-- The observable effects of one request: catalog refreshes run and HTTP
POSTs issued to backends (request headers and timeouts are carried by the
config, not modelled as part of the wire effect). -/
inductive Effect where
  | refreshed
  | posted (url : String) (body : Json)

/-- The ambient world of a request: Python library functions (`json.loads`,
`json.dumps(..., indent=2)`), the network, the configuration table and the
clock.  All are oracles: the embedding is deterministic relative to them. -/
structure Ctx where
  loads : String → Option Json
  dumps2 : Json → String
  post : String → Json → String
  probe : String → Bool
  listResp : String → ListResp
  backends : List (String × BackendConfig)
  nowIso : String
  isoOf : Nat → String

/-- The JSON-RPC request body both `call_backend_tool` (src/app.py:364) and
the refresh burst (src/app.py:251) construct. -/
def mkRpcBody (method : String) (params : Json) : Json :=
  .obj [("jsonrpc", .str "2.0"), ("id", .num 1), ("method", .str method), ("params", params)]

/-- What the gateway gets out of an upstream HTTP body: a parsed envelope;
`None` from `parse_sse_response` (.sseNone); or the `json.JSONDecodeError`
that `response.json()` raises on an unparseable JSON body (.jsonError — the
exception text is abbreviated, no claim inspects it). -/
inductive DecodedReply where
  | envelope (j : Json)
  | sseNone
  | jsonError (msg : String)

/-- Framing dispatch on `transport` (src/app.py:256-259 and 367-369). -/
def decodeBody (loads : String → Option Json) (transport : String) (text : String) : DecodedReply :=
  if transport = "sse" then
    match parse_sse_response loads text with
    | some j => .envelope j
    | none => .sseNone
  else
    match loads text with
    | some j => .envelope j
    | none => .jsonError "JSONDecodeError"

/-- `call_backend_tool` (src/app.py:357-369): build the `tools/call` JSON-RPC
body, POST it once to `backend_url`, decode the reply per `transport`. -/
def call_backend_tool (ctx : Ctx) (backend_url : String) (tool_name : String)
    (arguments : Json) (transport : String) : List Effect × DecodedReply :=
  let body := mkRpcBody "tools/call" (.obj [("name", .str tool_name), ("arguments", arguments)])
  ([.posted backend_url body], decodeBody ctx.loads transport (ctx.post backend_url body))

/-! ### Catalog refresh (src/app.py:227-293) -/

/-- The per-tool loop body of `ToolCatalog.refresh` (src/app.py:265-280):
stage every tool under `prefix + "_" + name`, overwriting (dict assignment)
any entry already staged under that key.  Returns `false` when the loop
aborts: a tool record without a string `"name"` makes `tool["name"]` raise
`KeyError` in CPython, which the `except` at src/app.py:287 turns into an
error health record while the tools staged before the bad one remain. -/
def ingestTools (backend_name : String) (config : BackendConfig) :
    List Json → List (String × Entry) → List (String × Entry) × Bool
  | [], acc => (acc, true)
  | t :: rest, acc =>
      match jGet t "name" with
      | some (.str original_name) =>
          let prefixed_name := config.pfx ++ "_" ++ original_name
          let e : Entry :=
            { backend := backend_name
              backend_url := config.url
              original_name := original_name
              transport := config.transport
              headers := config.headers
              timeout := config.timeout.getD 60
              schema :=
                { name := prefixed_name
                  description := "[" ++ pyUpper config.pfx ++ "] "
                    ++ pyFormat (jGetD t "description" (.str ""))
                  inputSchema := jGetD t "inputSchema" (.obj []) } }
          ingestTools backend_name config rest (dictInsert prefixed_name e acc)
      | _ => (acc, false)

/-- The body of `refresh`'s per-backend loop (src/app.py:236-288): probe,
POST `tools/list`, decode, ingest; every failure is captured in the backend's
health record and skips ingestion without aborting the refresh. -/
def refreshStep (ctx : Ctx) (acc : List (String × Entry) × List (String × HealthRec))
    (b : String × BackendConfig) : List (String × Entry) × List (String × HealthRec) :=
  let backend_name := b.1
  let config := b.2
  if ¬ ctx.probe backend_name then
    (acc.1, dictInsert backend_name ⟨"unhealthy", 0, some "Health check failed"⟩ acc.2)
  else
    match ctx.listResp backend_name with
    | .timeout =>
        (acc.1, dictInsert backend_name ⟨"timeout", 0, some "Connection timeout"⟩ acc.2)
    | .error msg =>
        (acc.1, dictInsert backend_name ⟨"error", 0, some (msg.take 100)⟩ acc.2)
    | .ok status text =>
        if status ≠ 200 then
          (acc.1, dictInsert backend_name ⟨"error", 0, some ("HTTP " ++ toString status)⟩ acc.2)
        else
          match decodeBody ctx.loads config.transport text with
          | .jsonError m =>
              (acc.1, dictInsert backend_name ⟨"error", 0, some m⟩ acc.2)
          | .sseNone =>
              (acc.1, dictInsert backend_name ⟨"error", 0, some "Could not parse response"⟩ acc.2)
          | .envelope data =>
              if ¬ pyTruthy data then
                (acc.1, dictInsert backend_name ⟨"error", 0, some "Could not parse response"⟩ acc.2)
              else
                match data with
                | .obj _ =>
                    match jGetD (jGetD data "result" (.obj [])) "tools" (.arr []) with
                    | .arr ts =>
                        match ingestTools backend_name config ts acc.1 with
                        | (staged, true) =>
                            (staged, dictInsert backend_name ⟨"healthy", ts.length, none⟩ acc.2)
                        | (staged, false) =>
                            (staged, dictInsert backend_name ⟨"error", 0, some "KeyError"⟩ acc.2)
                    | _ =>
                        (acc.1, dictInsert backend_name ⟨"error", 0, some "TypeError"⟩ acc.2)
                | _ =>
                    (acc.1, dictInsert backend_name ⟨"error", 0, some "AttributeError"⟩ acc.2)

/-- `ToolCatalog.refresh` (src/app.py:227-293): visit the enabled backends in
ascending priority (stable) order, staging tools and health records, then
commit both maps. -/
def refresh (ctx : Ctx) : List (String × Entry) × List (String × HealthRec) :=
  (pySortedByPriority (ctx.backends.filter (fun b => b.2.enabled))).foldl (refreshStep ctx) ([], [])

/-- The state after `run_async(catalog.refresh())` completes at instant `now`
(src/app.py:289-291). -/
def catalogRefresh (ctx : Ctx) (now : Nat) : GatewayState :=
  let r := refresh ctx
  { tools := r.1, backend_health := r.2, last_refresh := some now }

/-! ### Native tools (src/app.py:311-405) -/

/-- The `NATIVE_TOOLS` table (src/app.py:311-347), as the JSON schemas the
gateway advertises. -/
def NATIVE_TOOLS : List Json :=
  [ .obj [("name", .str "hivemind_write"),
      ("description", .str "[GATEWAY] Write an entry to the Sovereign Mind Hive Mind shared memory"),
      ("inputSchema", .obj [("type", .str "object"),
        ("properties", .obj [
          ("source", .obj [("type", .str "string"), ("description", .str "Source identifier")]),
          ("category", .obj [("type", .str "string"),
            ("description", .str "Category: CONTEXT, DECISION, ACTION_ITEM, etc")]),
          ("workstream", .obj [("type", .str "string"),
            ("description", .str "Workstream or project name"), ("default", .str "GENERAL")]),
          ("summary", .obj [("type", .str "string"), ("description", .str "Clear summary"),
            ("maxLength", .num 2000)]),
          ("details", .obj [("type", .str "object"), ("description", .str "JSON details object")]),
          ("priority", .obj [("type", .str "string"),
            ("enum", .arr [.str "HIGH", .str "MEDIUM", .str "LOW"]), ("default", .str "MEDIUM")]),
          ("tags", .obj [("type", .str "array"), ("items", .obj [("type", .str "string")])])]),
        ("required", .arr [.str "source", .str "category", .str "summary"])])],
    .obj [("name", .str "hivemind_read"),
      ("description", .str "[GATEWAY] Read recent entries from the Sovereign Mind Hive Mind"),
      ("inputSchema", .obj [("type", .str "object"),
        ("properties", .obj [
          ("limit", .obj [("type", .str "integer"), ("default", .num 10), ("maximum", .num 50)]),
          ("category", .obj [("type", .str "string")]),
          ("source", .obj [("type", .str "string")]),
          ("workstream", .obj [("type", .str "string")])])])],
    .obj [("name", .str "gateway_status"),
      ("description", .str "[GATEWAY] Get the status of all MCP backends and health information"),
      ("inputSchema", .obj [("type", .str "object"), ("properties", .obj [])])] ]

/-- The native tool names (src/app.py:418: `[t["name"] for t in NATIVE_TOOLS]`). -/
def native_names : List String := ["hivemind_write", "hivemind_read", "gateway_status"]

/-- A `{type: "text", text: s}` content block. -/
def textBlock (s : String) : Json :=
  .obj [("type", .str "text"), ("text", .str s)]

/-- A tool-level error envelope with a single text block. -/
def errorEnvelope (s : String) : Json :=
  .obj [("content", .arr [textBlock s]), ("isError", .bool true)]

/-- `ToolCatalog.get_health_report` (src/app.py:301-306). -/
def get_health_report (ctx : Ctx) (st : GatewayState) : Json :=
  .obj [("last_refresh", match st.last_refresh with
          | some t => .str (ctx.isoOf t)
          | none => .null),
        ("total_tools", .num st.tools.length),
        ("backends", .obj (st.backend_health.map (fun kv =>
          (kv.1, Json.obj [("status", .str kv.2.status), ("tools", .num kv.2.tools),
            ("error", match kv.2.error with | some m => Json.str m | none => Json.null)]))))]

/-- The SQL string `hivemind_write` interpolates (src/app.py:378-380).  Only
`summary` and the serialized `details` pass through the quote-doubling
`replace`; `source`, `category`, `workstream`, `priority` and the serialized
`tags` are interpolated raw. -/
def hivemind_write_sql (arguments : Json) : String :=
  let tags_json := match jGet arguments "tags" with
    | some t => if pyTruthy t then jsonDumps t else "NULL"
    | none => "NULL"
  let details_json := match jGet arguments "details" with
    | some t => if pyTruthy t then jsonDumps t else "NULL"
    | none => "NULL"
  "INSERT INTO SOVEREIGN_MIND.RAW.HIVE_MIND (SOURCE, CATEGORY, WORKSTREAM, SUMMARY, DETAILS, PRIORITY, STATUS, TAGS) VALUES ('"
    ++ pyFormat (jGetD arguments "source" (.str "GATEWAY")) ++ "', '"
    ++ pyFormat (jGetD arguments "category" (.str "CONTEXT")) ++ "', '"
    ++ pyFormat (jGetD arguments "workstream" (.str "GENERAL")) ++ "', '"
    ++ pyEscape (pyFormat (jGetD arguments "summary" (.str ""))) ++ "', PARSE_JSON('"
    ++ pyEscape details_json ++ "'), '"
    ++ pyFormat (jGetD arguments "priority" (.str "MEDIUM")) ++ "', 'ACTIVE', PARSE_JSON('"
    ++ tags_json ++ "'))"

/-- The SQL string `hivemind_read` interpolates (src/app.py:390-399).  None of
the three filters passes through any escaping. -/
def hivemind_read_sql (arguments : Json) : String :=
  let conditions : List String :=
    (match jGet arguments "category" with
      | some v => if pyTruthy v then ["CATEGORY = '" ++ pyFormat v ++ "'"] else []
      | none => []) ++
    (match jGet arguments "source" with
      | some v => if pyTruthy v then ["SOURCE = '" ++ pyFormat v ++ "'"] else []
      | none => []) ++
    (match jGet arguments "workstream" with
      | some v => if pyTruthy v then ["WORKSTREAM = '" ++ pyFormat v ++ "'"] else []
      | none => [])
  let where_clause := if conditions.isEmpty then "" else "WHERE " ++ joinSep " AND " conditions
  "SELECT ID, CREATED_AT, SOURCE, CATEGORY, WORKSTREAM, SUMMARY, PRIORITY, STATUS FROM SOVEREIGN_MIND.RAW.HIVE_MIND "
    ++ where_clause ++ " ORDER BY CREATED_AT DESC LIMIT "
    ++ pyFormat (jGetD arguments "limit" (.num 10))

/-- The `gateway_status` payload (src/app.py:373). -/
def gatewayStatusJson (ctx : Ctx) (st : GatewayState) : Json :=
  .obj [("gateway", .str "sovereign_mind_gateway"), ("version", .str "2.0.0"),
        ("timestamp", .str ctx.nowIso), ("health", get_health_report ctx st),
        ("backends_configured", .arr (ctx.backends.map (fun b => Json.str b.1)))]

/-- `hivemind_read`'s post-processing `result.get("result", result)`
(src/app.py:402); a reply that is not a dict makes `.get` raise, which the
`except` at src/app.py:403 turns into the error envelope. -/
def hivemindReadResult : DecodedReply → Json
  | .envelope (.obj kvs) => jGetD (.obj kvs) "result" (.obj kvs)
  | .envelope _ => errorEnvelope "Error reading Hive Mind: AttributeError"
  | .sseNone => errorEnvelope "Error reading Hive Mind: AttributeError"
  | .jsonError m => errorEnvelope ("Error reading Hive Mind: " ++ m)

/-- `handle_native_tool` (src/app.py:371-405). -/
def handle_native_tool (ctx : Ctx) (st : GatewayState) (tool_name : String)
    (arguments : Json) : List Effect × Json :=
  if tool_name = "gateway_status" then
    ([], .obj [("content", .arr [textBlock (ctx.dumps2 (gatewayStatusJson ctx st))])])
  else if tool_name = "hivemind_write" then
    match dictLookup "sm_query_snowflake" st.tools with
    | none => ([], errorEnvelope "Error: Snowflake backend not available")
    | some tool_info =>
        let sql := hivemind_write_sql arguments
        let r := call_backend_tool ctx tool_info.backend_url tool_info.original_name
          (.obj [("sql", .str sql)]) tool_info.transport
        (r.1, .obj [("content", .arr [textBlock "Hive Mind entry created successfully"])])
  else if tool_name = "hivemind_read" then
    match dictLookup "sm_query_snowflake" st.tools with
    | none => ([], errorEnvelope "Error: Snowflake backend not available")
    | some tool_info =>
        let sql := hivemind_read_sql arguments
        let r := call_backend_tool ctx tool_info.backend_url tool_info.original_name
          (.obj [("sql", .str sql)]) tool_info.transport
        (r.1, hivemindReadResult r.2)
  else ([], errorEnvelope ("Unknown native tool: " ++ tool_name))

/-! ### Method handlers and the shared pipeline (src/app.py:407-447) -/

/-- The envelope for `"No response from backend"` (src/app.py:431). -/
def noResponseEnvelope : Json := errorEnvelope "No response from backend"

/-- Interpretation of a backend's `tools/call` reply (src/app.py:426-434):
`result["result"]` verbatim when present, `"Backend error: ..."` on an error
member, the reply itself when truthy without either key, and the error
envelopes for falsy or undecodable replies. -/
def interpretReply : DecodedReply → Json
  | .envelope result =>
      if pyTruthy result && pyIn "result" result then
        match result with
        | .obj _ => (jGet result "result").getD .null
        | _ => errorEnvelope "Error calling tool: TypeError"
      else if pyTruthy result && pyIn "error" result then
        match result with
        | .obj _ => errorEnvelope ("Backend error: " ++ pyFormat ((jGet result "error").getD .null))
        | _ => errorEnvelope "Error calling tool: TypeError"
      else if pyTruthy result then result
      else noResponseEnvelope
  | .sseNone => noResponseEnvelope
  | .jsonError m => errorEnvelope ("Error calling tool: " ++ m)

/-- `handle_tools_call` (src/app.py:415-434): native names first, then a
catalog lookup; a miss produces the unknown-tool envelope; a hit forwards via
`call_backend_tool` with the entry's url, original name, transport. -/
def handle_tools_call (ctx : Ctx) (st : GatewayState) (params : Json) : List Effect × Json :=
  let tool_name := jGetD params "name" (.str "")
  let arguments := jGetD params "arguments" (.obj [])
  match tool_name with
  | .str n =>
      if n ∈ native_names then handle_native_tool ctx st n arguments
      else
        match dictLookup n st.tools with
        | none => ([], errorEnvelope ("Error: Unknown tool '" ++ n ++ "'"))
        | some tool_info =>
            let r := call_backend_tool ctx tool_info.backend_url tool_info.original_name
              arguments tool_info.transport
            (r.1, interpretReply r.2)
  | other => ([], errorEnvelope ("Error: Unknown tool '" ++ pyFormat other ++ "'"))

/-- `ToolCatalog.get_all_tools` (src/app.py:295-296): the schemas in catalog
(insertion) order. -/
def get_all_tools (st : GatewayState) : List Json :=
  st.tools.map (fun kv =>
    Json.obj [("name", .str kv.2.schema.name), ("description", .str kv.2.schema.description),
      ("inputSchema", kv.2.schema.inputSchema)])

/-- `handle_tools_list` (src/app.py:410-413): refresh lazily when
`needs_refresh()`, then list catalog plus native schemas. -/
def handle_tools_list (ctx : Ctx) (st : GatewayState) (now : Nat) :
    GatewayState × List Effect × Json :=
  if needs_refresh st.last_refresh now then
    let st' := catalogRefresh ctx now
    (st', [.refreshed], .obj [("tools", .arr (get_all_tools st' ++ NATIVE_TOOLS))])
  else
    (st, [], .obj [("tools", .arr (get_all_tools st ++ NATIVE_TOOLS))])

/-- `handle_initialize`'s result (src/app.py:407-408). -/
def initializeResult : Json :=
  .obj [("protocolVersion", .str "2024-11-05"),
        ("capabilities", .obj [("tools", .obj [("listChanged", .bool true)])]),
        ("serverInfo", .obj [("name", .str "sovereign-mind-gateway"), ("version", .str "2.0.0")])]

/-- A JSON-RPC success envelope (src/app.py:447). -/
def rpcSuccess (request_id : Json) (result : Json) : Json :=
  .obj [("jsonrpc", .str "2.0"), ("id", request_id), ("result", result)]

/-- The `-32601` error envelope (src/app.py:446). -/
def methodNotFound (request_id : Json) (method : Json) : Json :=
  .obj [("jsonrpc", .str "2.0"), ("id", request_id),
        ("error", .obj [("code", .num (-32601)),
          ("message", .str ("Method not found: " ++ pyFormat method))])]

/-- `process_mcp_message` (src/app.py:436-447): extract `method`, `params`
and `id` (defaulting a missing id to the integer 1), dispatch to the four
handlers, wrap the handler result as a JSON-RPC success. -/
def process_mcp_message (ctx : Ctx) (st : GatewayState) (now : Nat) (data : Json) :
    GatewayState × List Effect × Json :=
  let method := jGetD data "method" (.str "")
  let params := jGetD data "params" (.obj [])
  let request_id := jGetD data "id" (.num 1)
  match method with
  | .str m =>
      if m = "initialize" then (st, [], rpcSuccess request_id initializeResult)
      else if m = "tools/list" then
        let r := handle_tools_list ctx st now
        (r.1, r.2.1, rpcSuccess request_id r.2.2)
      else if m = "tools/call" then
        let r := handle_tools_call ctx st params
        (st, r.1, rpcSuccess request_id r.2)
      else if m = "notifications/initialized" then (st, [], rpcSuccess request_id (.obj []))
      else (st, [], methodNotFound request_id method)
  | other => (st, [], methodNotFound request_id other)

/-! ### Push sessions (src/app.py:465-501) -/

/-- `queue.Queue().put` for the queues `sse_connect` creates
(src/app.py:468): the constructor takes no `maxsize`, so the queue is
unbounded FIFO and `put` appends without blocking or dropping. -/
def queue_put {α : Type} (q : List α) (x : α) : List α := q ++ [x]

/-- `sse_message` (src/app.py:488-501): 404 for an unknown session, else run
the pipeline and enqueue the response envelope on the session's outbound
queue, acknowledging with `{status: "ok"}`. -/
def sse_message (ctx : Ctx) (st : GatewayState) (now : Nat)
    (sse_sessions : List (String × List Json)) (session_id : String) (data : Json) :
    GatewayState × List (String × List Json) × Json :=
  match dictLookup session_id sse_sessions with
  | none => (st, sse_sessions, .obj [("error", .str "Session not found")])
  | some q =>
      let r := process_mcp_message ctx st now data
      (r.1, dictInsert session_id (queue_put q r.2.2) sse_sessions,
       .obj [("status", .str "ok")])

/-! ### Interleaving model of concurrent requests (Flask `threaded=True`,
src/app.py:530).  Each live `tools/list`-style request is a thread that (1)
evaluates `catalog.needs_refresh()` against the shared state and, when true,
enters `run_async(catalog.refresh())` (src/app.py:411-412) — there is no
lock, flag, or other singleflight barrier anywhere in src/app.py — then (2)
finishes the refresh, committing `last_refresh`.  `inFlight` counts the
refreshes currently executing. -/

/-- Where one request thread stands. -/
inductive RPc where
  | idle
  | refreshing
  | done

/-- The shared state plus each concurrent request's position. -/
structure RSys where
  lastRefresh : Option Nat
  now : Nat
  threads : List RPc
  inFlight : Nat

/-- One interleaving step: a thread at its `needs_refresh()` check either
starts its own refresh (the only guard in the code is `needs_refresh`) or is
served from the cache; a refreshing thread finishes, committing
`last_refresh := now`. -/
inductive RStep : RSys → RSys → Prop
  | startRefresh (s : RSys) (i : Nat)
      (hpc : s.threads.get? i = some .idle)
      (hneed : needs_refresh s.lastRefresh s.now = true) :
      RStep s { s with threads := s.threads.set i .refreshing, inFlight := s.inFlight + 1 }
  | serveCached (s : RSys) (i : Nat)
      (hpc : s.threads.get? i = some .idle)
      (hneed : needs_refresh s.lastRefresh s.now = false) :
      RStep s { s with threads := s.threads.set i .done }
  | finishRefresh (s : RSys) (i : Nat)
      (hpc : s.threads.get? i = some .refreshing) :
      RStep s { s with threads := s.threads.set i .done, inFlight := s.inFlight - 1,
                       lastRefresh := some s.now }

/-- Reachability under the interleaving. -/
def RReach : RSys → RSys → Prop := Relation.ReflTransGen RStep

/-- The namespace invariant of one committed catalog binding `kv` relative to
the configuration table: the exposed schema name is the binding's key, the key
is the owning (enabled) upstream's prefix, an underscore, and the original
name, and the exposed description begins with the bracketed uppercased
prefix tag. -/
def EntryInv (backends : List (String × BackendConfig)) (kv : String × Entry) : Prop :=
  kv.2.schema.name = kv.1 ∧
  ∃ bn cfg, (bn, cfg) ∈ backends ∧ cfg.enabled = true ∧ kv.2.backend = bn ∧
    kv.1 = cfg.pfx ++ "_" ++ kv.2.original_name ∧
    ∃ rest, kv.2.schema.description = "[" ++ pyUpper cfg.pfx ++ "] " ++ rest

/-! ### Concrete instances used by witnesses and counterexamples -/

/-- A closed world: no backends, every oracle trivial. -/
def trivialCtx : Ctx :=
  { loads := fun _ => none
    dumps2 := fun _ => ""
    post := fun _ _ => ""
    probe := fun _ => true
    listResp := fun _ => .ok 200 ""
    backends := []
    nowIso := ""
    isoOf := fun _ => "" }

/-- An empty catalog that has never refreshed. -/
def emptySt : GatewayState := ⟨[], [], none⟩

/-- A catalog entry for a backend tool `x` of upstream `b`. -/
def c1Entry : Entry :=
  ⟨"b", "http://b/mcp", "x", "json", [], 60, ⟨"b_x", "[B] demo", Json.obj []⟩⟩

/-- A world whose single POST target answers with a JSON-RPC `result`. -/
def c1Ctx : Ctx :=
  { trivialCtx with
    loads := fun s => if s = "ok"
      then some (Json.obj [("result", Json.obj [("content", Json.arr [])])]) else none
    post := fun _ _ => "ok" }

/-- A refreshed catalog holding only `b_x`. -/
def c1St : GatewayState := ⟨[("b_x", c1Entry)], [], some 0⟩

/-- `tools/call` params addressing `b_x`. -/
def c1Params : Json :=
  Json.obj [("name", Json.str "b_x"), ("arguments", Json.obj [("k", Json.num 1)])]

/-- A Snowflake-like backend config with prefix `sm`. -/
def c2Cfg : BackendConfig :=
  ⟨"http://sf/mcp", "sm", "", true, "json", 1, true, none, [], none⟩

/-- The `tools/list` envelope that backend advertises. -/
def c2ToolsBody : Json :=
  Json.obj [("result", Json.obj [("tools", Json.arr
    [Json.obj [("name", Json.str "query_snowflake"), ("description", Json.str "Run SQL")]])])]

/-- A world with the one backend above. -/
def c2Ctx : Ctx :=
  { trivialCtx with
    loads := fun s => if s = "L" then some c2ToolsBody else none
    listResp := fun _ => .ok 200 "L"
    backends := [("snowflake", c2Cfg)] }

/-- The entry the refresh stages for that tool. -/
def c2Entry : Entry :=
  ⟨"snowflake", "http://sf/mcp", "query_snowflake", "json", [], 60,
    ⟨"sm_query_snowflake", "[SM] Run SQL", Json.obj []⟩⟩

/-- Two enabled upstreams that share prefix `p` and both expose a tool `x`. -/
def c4Cfg1 : BackendConfig := ⟨"http://b1/mcp", "p", "", true, "json", 1, true, none, [], none⟩

/-- Second upstream of the conflict pair. -/
def c4Cfg2 : BackendConfig := ⟨"http://b2/mcp", "p", "", true, "json", 1, true, none, [], none⟩

/-- `b1`'s catalog body. -/
def c4Body1 : Json :=
  Json.obj [("result", Json.obj [("tools", Json.arr
    [Json.obj [("name", Json.str "x"), ("description", Json.str "from b1")]])])]

/-- `b2`'s catalog body. -/
def c4Body2 : Json :=
  Json.obj [("result", Json.obj [("tools", Json.arr
    [Json.obj [("name", Json.str "x"), ("description", Json.str "from b2")]])])]

/-- The conflicting two-upstream world. -/
def c4Ctx : Ctx :=
  { trivialCtx with
    loads := fun s => if s = "T1" then some c4Body1 else if s = "T2" then some c4Body2 else none
    listResp := fun n => if n = "b1" then .ok 200 "T1" else .ok 200 "T2"
    backends := [("b1", c4Cfg1), ("b2", c4Cfg2)] }

/-- The entry that actually survives the conflict: `b2`'s. -/
def c4EntryLater : Entry :=
  ⟨"b2", "http://b2/mcp", "x", "json", [], 60, ⟨"p_x", "[P] from b2", Json.obj []⟩⟩

/-- A catalog whose last refresh committed at instant 0. -/
def c5StaleSt : GatewayState := ⟨[], [], some 0⟩

/-- A `tools/call` request for an unregistered tool. -/
def c3Data : Json :=
  Json.obj [("method", Json.str "tools/call"), ("id", Json.num 7),
    ("params", Json.obj [("name", Json.str "nonexistent")])]

/-- A JSON-RPC notification: no `id` member. -/
def c10Data : Json := Json.obj [("method", Json.str "notifications/initialized")]

/-- `hivemind_read` arguments whose single `category` filter smuggles a
second conjunct through the unescaped interpolation. -/
def c7ReadArgsA : Json := Json.obj [("category", Json.str "x' AND SOURCE = 'y")]

/-- Honest two-filter arguments producing the same SQL text. -/
def c7ReadArgsB : Json :=
  Json.obj [("category", Json.str "x"), ("source", Json.str "y")]

/-- `hivemind_write` arguments whose `source` carries a quote. -/
def c7WriteArgs : Json :=
  Json.obj [("source", Json.str "O'Brien"), ("category", Json.str "CONTEXT"),
    ("summary", Json.str "note")]

/-- A JSON decoder for the C6 witness: accepts exactly the serialization
`"42"`. -/
def sseWitnessLoads : String → Option Nat :=
  fun s => if s = "42" then some 42 else none

/-- 257 envelopes enqueued on one (unbounded) session queue. -/
def overfullQueue : List Nat := (List.range 257).foldl queue_put []

/-- Two stale concurrent requests, none started. -/
def c9s0 : RSys := ⟨none, 0, [.idle, .idle], 0⟩

/-- The first request has begun its own refresh. -/
def c9s1 : RSys := ⟨none, 0, [.refreshing, .idle], 1⟩

/-- The second request, still observing `needs_refresh`, has begun another:
two refreshes in flight. -/
def c9s2 : RSys := ⟨none, 0, [.refreshing, .refreshing], 2⟩

section SseLemmas

theorem pySplit_no_sep (sep : Char) (l : List Char) (h : sep ∉ l) :
    pySplit sep l = [l] := by
  induction l with
  | nil => rfl
  | cons c cs ih =>
      have hc : ¬ c = sep := fun hcs => h (hcs ▸ List.mem_cons_self c cs)
      have hcs : sep ∉ cs := fun hm => h (List.mem_cons_of_mem c hm)
      simp [pySplit, hc, ih hcs]

theorem pySplit_append_sep (sep : Char) (l1 l2 : List Char) (h : sep ∉ l1) :
    pySplit sep (l1 ++ sep :: l2) = l1 :: pySplit sep l2 := by
  induction l1 with
  | nil => simp [pySplit]
  | cons c cs ih =>
      have hc : ¬ c = sep := fun hcs => h (hcs ▸ List.mem_cons_self c cs)
      have hcs : sep ∉ cs := fun hm => h (List.mem_cons_of_mem c hm)
      have hne : pySplit sep (cs ++ sep :: l2) = cs :: pySplit sep l2 := ih hcs
      simp [pySplit, hc, hne]

theorem leadsWith_append (pre rest : List Char) :
    leadsWith pre (pre ++ rest) = true := by
  induction pre with
  | nil => rfl
  | cons a as ih => simp [leadsWith, ih]

theorem scanLines_none {J : Type} (loads : String → Option J) (lines : List (List Char))
    (h : ∀ line ∈ lines, leadsWith "data: ".toList line = true →
      loads (String.mk (line.drop 6)) = none) :
    parse_sse_response.scanLines loads lines = none := by
  induction lines with
  | nil => rfl
  | cons line rest ih =>
      have hrest := ih (fun l hl => h l (List.mem_cons_of_mem line hl))
      cases hd : leadsWith "data: ".toList line with
      | true =>
          have hline := h line (List.mem_cons_self line rest) hd
          simp only [parse_sse_response.scanLines]
          rw [hd, hline]
          simpa using hrest
      | false =>
          simp only [parse_sse_response.scanLines]
          rw [hd]
          simpa using hrest

end SseLemmas

/-- C6: for any JSON value `V` whose one-line serialization `sV` satisfies
`loads sV = some V` (the `json` library's round trip) and contains no newline,
decoding the SSE-framed body `"event: message\ndata: " + sV + "\n\n"` with
`parse_sse_response` yields exactly `V`; and a body none of whose `"data: "`
lines parses yields no envelope at all. -/
theorem sse_framing_roundtrip {J : Type} (loads : String → Option J) (V : J) (sV : String)
    (hnl : '\n' ∉ sV.toList) (hround : loads sV = some V) :
    parse_sse_response loads ("event: message\ndata: " ++ sV ++ "\n\n") = some V ∧
    ∀ body : String,
      (∀ line ∈ pySplit '\n' body.toList, leadsWith "data: ".toList line = true →
        loads (String.mk (line.drop 6)) = none) →
      parse_sse_response loads body = none := by
  constructor
  · have h1 : ("event: message\ndata: " ++ sV ++ "\n\n").toList
        = "event: message".toList ++ '\n' ::
          (("data: ".toList ++ sV.toList) ++ '\n' :: ['\n']) := by
      have h0 : ("event: message\ndata: " ++ sV ++ "\n\n").toList
          = "event: message\ndata: ".toList ++ sV.toList ++ "\n\n".toList := rfl
      rw [h0]
      have h2 : "event: message\ndata: ".toList
          = "event: message".toList ++ '\n' :: "data: ".toList := by decide
      rw [h2]
      simp
    have hrest : '\n' ∉ "data: ".toList ++ sV.toList := by
      intro hm
      rcases List.mem_append.mp hm with hm | hm
      · revert hm; decide
      · exact hnl hm
    have hsplit : pySplit '\n' ("event: message\ndata: " ++ sV ++ "\n\n").toList
        = "event: message".toList :: ("data: ".toList ++ sV.toList) :: [[], []] := by
      rw [h1, pySplit_append_sep _ _ _ (by decide), pySplit_append_sep _ _ _ hrest]
      rfl
    have hfalse : leadsWith "data: ".toList "event: message".toList = false := by decide
    have hdrop : ("data: ".toList ++ sV.toList).drop 6 = sV.toList :=
      List.drop_left "data: ".toList sV.toList
    have hmk : String.mk sV.toList = sV := rfl
    unfold parse_sse_response
    rw [hsplit]
    simp only [parse_sse_response.scanLines]
    rw [hfalse, leadsWith_append, hdrop, hmk, hround]
    simp
  · intro body hb
    exact scanLines_none loads _ hb

/-- Witness for C6 at the value 42, serialized `"42"`, with a decoder that
accepts exactly that serialization. -/
theorem sse_framing_roundtrip_witness :
    parse_sse_response sseWitnessLoads "event: message\ndata: 42\n\n" = some 42 :=
  (sse_framing_roundtrip sseWitnessLoads 42 "42" (by decide) (by rfl)).1

/-! ### Dictionary lemmas -/

theorem dictLookup_mem {α : Type} (k : String) (d : List (String × α)) (v : α)
    (h : dictLookup k d = some v) : (k, v) ∈ d := by
  induction d with
  | nil => simp [dictLookup] at h
  | cons kv rest ih =>
      obtain ⟨k', v'⟩ := kv
      by_cases hk : k' = k
      · rw [dictLookup, if_pos hk] at h
        obtain rfl : v' = v := by injection h
        subst hk
        exact List.mem_cons_self _ _
      · rw [dictLookup, if_neg hk] at h
        exact List.mem_cons_of_mem _ (ih h)

theorem mem_dictInsert {α : Type} (k : String) (v : α) (d : List (String × α))
    (kv : String × α) (h : kv ∈ dictInsert k v d) : kv = (k, v) ∨ kv ∈ d := by
  induction d with
  | nil => left; simpa [dictInsert] using h
  | cons kv' rest ih =>
      obtain ⟨k', v'⟩ := kv'
      by_cases hk : k' = k
      · rw [dictInsert, if_pos hk] at h
        rcases List.mem_cons.mp h with h | h
        · left; exact h
        · right; exact List.mem_cons_of_mem _ h
      · rw [dictInsert, if_neg hk] at h
        rcases List.mem_cons.mp h with h | h
        · right; rw [h]; exact List.mem_cons_self _ _
        · rcases ih h with h | h
          · left; exact h
          · right; exact List.mem_cons_of_mem _ h

theorem dictLookup_dictInsert_self {α : Type} (k : String) (v : α) (d : List (String × α)) :
    dictLookup k (dictInsert k v d) = some v := by
  induction d with
  | nil => simp [dictInsert, dictLookup]
  | cons kv' rest ih =>
      obtain ⟨k', v'⟩ := kv'
      by_cases hk : k' = k
      · rw [dictInsert, if_pos hk, dictLookup, if_pos rfl]
      · rw [dictInsert, if_neg hk, dictLookup, if_neg hk]
        exact ih

/-! ### Refresh invariant lemmas (claim C2) -/

theorem ingestTools_inv (backends : List (String × BackendConfig))
    (bn : String) (cfg : BackendConfig)
    (hmem : (bn, cfg) ∈ backends) (hen : cfg.enabled = true) :
    ∀ (ts : List Json) (acc : List (String × Entry)),
      (∀ kv ∈ acc, EntryInv backends kv) →
      ∀ kv ∈ (ingestTools bn cfg ts acc).1, EntryInv backends kv := by
  intro ts
  induction ts with
  | nil => intro acc hacc kv hkv; exact hacc kv hkv
  | cons t rest ih =>
      intro acc hacc kv hkv
      rw [ingestTools] at hkv
      cases hn : jGet t "name" with
      | none => rw [hn] at hkv; exact hacc kv hkv
      | some nv =>
          cases nv with
          | str original_name =>
              rw [hn] at hkv
              refine ih _ ?_ kv hkv
              intro kv' hkv'
              rcases mem_dictInsert _ _ _ _ hkv' with rfl | hkv'
              · refine ⟨rfl, bn, cfg, hmem, hen, rfl, rfl, ?_⟩
                exact ⟨pyFormat (jGetD t "description" (.str "")), rfl⟩
              · exact hacc kv' hkv'
          | null => rw [hn] at hkv; exact hacc kv hkv
          | bool b => rw [hn] at hkv; exact hacc kv hkv
          | num n => rw [hn] at hkv; exact hacc kv hkv
          | arr xs => rw [hn] at hkv; exact hacc kv hkv
          | obj kvs => rw [hn] at hkv; exact hacc kv hkv

theorem refreshStep_entries (ctx : Ctx) (acc : List (String × Entry) × List (String × HealthRec))
    (b : String × BackendConfig) :
    (refreshStep ctx acc b).1 = acc.1 ∨
    ∃ ts, (refreshStep ctx acc b).1 = (ingestTools b.1 b.2 ts acc.1).1 := by
  simp only [refreshStep]
  by_cases hp : ¬ ctx.probe b.1 = true
  · rw [if_pos hp]; left; rfl
  · rw [if_neg hp]
    cases hl : ctx.listResp b.1 with
    | timeout => left; rfl
    | error msg => left; rfl
    | ok status text =>
        dsimp only
        by_cases hst : status ≠ 200
        · rw [if_pos hst]; left; rfl
        · rw [if_neg hst]
          cases hd : decodeBody ctx.loads b.2.transport text with
          | jsonError m => left; rfl
          | sseNone => left; rfl
          | envelope data =>
              dsimp only
              by_cases ht : ¬ pyTruthy data = true
              · rw [if_pos ht]; left; rfl
              · rw [if_neg ht]
                cases data with
                | null => left; rfl
                | bool bb => left; rfl
                | num n => left; rfl
                | str s => left; rfl
                | arr xs => left; rfl
                | obj kvs =>
                    dsimp only
                    cases hts : jGetD (jGetD (Json.obj kvs) "result" (Json.obj []))
                        "tools" (Json.arr []) with
                    | null => left; rfl
                    | bool bb => left; rfl
                    | num n => left; rfl
                    | str s => left; rfl
                    | obj kvs2 => left; rfl
                    | arr ts =>
                        dsimp only
                        cases hing : ingestTools b.1 b.2 ts acc.1 with
                        | mk staged ok =>
                            cases ok
                            · right; exact ⟨ts, by rw [hing]⟩
                            · right; exact ⟨ts, by rw [hing]⟩

theorem refreshStep_inv (ctx : Ctx)
    (acc : List (String × Entry) × List (String × HealthRec)) (b : String × BackendConfig)
    (hmem : b ∈ ctx.backends) (hen : b.2.enabled = true)
    (hacc : ∀ kv ∈ acc.1, EntryInv ctx.backends kv) :
    ∀ kv ∈ (refreshStep ctx acc b).1, EntryInv ctx.backends kv := by
  rcases refreshStep_entries ctx acc b with h | ⟨ts, h⟩
  · rw [h]; exact hacc
  · rw [h]
    have hmem' : (b.1, b.2) ∈ ctx.backends := hmem
    exact ingestTools_inv ctx.backends b.1 b.2 hmem' hen ts acc.1 hacc

theorem mem_insortBackend (x y : String × BackendConfig) (l : List (String × BackendConfig))
    (h : y ∈ insortBackend x l) : y = x ∨ y ∈ l := by
  induction l with
  | nil => left; simpa [insortBackend] using h
  | cons z zs ih =>
      rw [insortBackend] at h
      by_cases hz : z.2.priority ≤ x.2.priority
      · rw [if_pos hz] at h
        rcases List.mem_cons.mp h with h | h
        · right; rw [h]; exact List.mem_cons_self _ _
        · rcases ih h with h | h
          · left; exact h
          · right; exact List.mem_cons_of_mem _ h
      · rw [if_neg hz] at h
        rcases List.mem_cons.mp h with h | h
        · left; exact h
        · right; exact h

theorem mem_pySortedByPriority (l : List (String × BackendConfig))
    (y : String × BackendConfig) (h : y ∈ pySortedByPriority l) : y ∈ l := by
  suffices haux : ∀ (l acc : List (String × BackendConfig)),
      y ∈ l.foldl (fun acc x => insortBackend x acc) acc → y ∈ acc ∨ y ∈ l by
    rcases haux l [] h with h' | h'
    · cases h'
    · exact h'
  intro l
  induction l with
  | nil => intro acc h; left; exact h
  | cons z zs ih =>
      intro acc h
      rcases ih (insortBackend z acc) h with h' | h'
      · rcases mem_insortBackend z y acc h' with h'' | h''
        · right; rw [h'']; exact List.mem_cons_self _ _
        · left; exact h''
      · right; exact List.mem_cons_of_mem _ h'

theorem foldl_refreshStep_inv (ctx : Ctx) (l : List (String × BackendConfig))
    (hl : ∀ b ∈ l, b ∈ ctx.backends ∧ b.2.enabled = true) :
    ∀ (acc : List (String × Entry) × List (String × HealthRec)),
      (∀ kv ∈ acc.1, EntryInv ctx.backends kv) →
      ∀ kv ∈ (l.foldl (refreshStep ctx) acc).1, EntryInv ctx.backends kv := by
  induction l with
  | nil => intro acc hacc; exact hacc
  | cons b rest ih =>
      intro acc hacc
      have hb := hl b (List.mem_cons_self _ _)
      have hstep := refreshStep_inv ctx acc b hb.1 hb.2 hacc
      exact ih (fun b' hb' => hl b' (List.mem_cons_of_mem _ hb')) (refreshStep ctx acc b) hstep

/-- C2: after every completed refresh, every committed catalog binding
`k ↦ e` satisfies the namespace invariant: `e.schema.name = k`; `k` is the
owning enabled upstream's prefix, `"_"`, and `e.original_name`; and the
exposed description begins with the bracketed uppercased prefix tag followed
by a space. -/
theorem refresh_namespace_invariant (ctx : Ctx) (k : String) (e : Entry)
    (h : dictLookup k (refresh ctx).1 = some e) :
    e.schema.name = k ∧
    ∃ bn cfg, (bn, cfg) ∈ ctx.backends ∧ cfg.enabled = true ∧ e.backend = bn ∧
      k = cfg.pfx ++ "_" ++ e.original_name ∧
      ∃ rest, e.schema.description = "[" ++ pyUpper cfg.pfx ++ "] " ++ rest := by
  have hkv : (k, e) ∈ (refresh ctx).1 := dictLookup_mem k _ e h
  have hinv : EntryInv ctx.backends (k, e) := by
    refine foldl_refreshStep_inv ctx _ ?_ ([], []) (fun kv hkv' => absurd hkv' (by simp)) _ hkv
    intro b hb
    have hfil := mem_pySortedByPriority _ b hb
    have := List.mem_filter.mp hfil
    exact ⟨this.1, by simpa using this.2⟩
  exact hinv

/-- Witness for C2: in the one-backend world `c2Ctx`, the refreshed catalog
binds `sm_query_snowflake` to `c2Entry`, and the invariant instantiates. -/
theorem refresh_namespace_invariant_witness :
    c2Entry.schema.name = "sm_query_snowflake" ∧
    ∃ bn cfg, (bn, cfg) ∈ c2Ctx.backends ∧ cfg.enabled = true ∧ c2Entry.backend = bn ∧
      "sm_query_snowflake" = cfg.pfx ++ "_" ++ c2Entry.original_name ∧
      ∃ rest, c2Entry.schema.description = "[" ++ pyUpper cfg.pfx ++ "] " ++ rest :=
  refresh_namespace_invariant c2Ctx "sm_query_snowflake" c2Entry (by rfl)

/-- C4 counterexample: in `c4Ctx`, upstreams `b1` (earlier: equal priority,
earlier insertion order) and `b2` both stage `p_x`; the committed catalog
binds `p_x` to `b2`'s entry, not `b1`'s — the claim that the earlier upstream
wins is false on the code. -/
theorem conflict_earlier_wins_refuted :
    dictLookup "p_x" (refresh c4Ctx).1 = some c4EntryLater ∧ c4EntryLater.backend ≠ "b1" := by
  constructor
  · rfl
  · intro h
    exact absurd h (by decide)

theorem ingestTools_single (bn : String) (cfg : BackendConfig) (t : Json) (x k : String)
    (ht : jGet t "name" = some (.str x)) (hk : cfg.pfx ++ "_" ++ x = k)
    (d : List (String × Entry)) :
    (ingestTools bn cfg [t] d).1 = dictInsert k
      { backend := bn
        backend_url := cfg.url
        original_name := x
        transport := cfg.transport
        headers := cfg.headers
        timeout := cfg.timeout.getD 60
        schema :=
          { name := k
            description := "[" ++ pyUpper cfg.pfx ++ "] "
              ++ pyFormat (jGetD t "description" (.str ""))
            inputSchema := jGetD t "inputSchema" (.obj []) } } d := by
  rw [ingestTools, ht]
  dsimp only
  rw [hk, ingestTools]

theorem refreshStep_ok_entries (ctx : Ctx) (bn : String) (cfg : BackendConfig)
    (txt : String) (ts : List Json)
    (hp : ctx.probe bn = true) (hl : ctx.listResp bn = .ok 200 txt)
    (hd : decodeBody ctx.loads cfg.transport txt =
      .envelope (Json.obj [("result", Json.obj [("tools", Json.arr ts)])]))
    (acc : List (String × Entry) × List (String × HealthRec)) :
    (refreshStep ctx acc (bn, cfg)).1 = (ingestTools bn cfg ts acc.1).1 := by
  simp only [refreshStep]
  rw [if_neg (by simp [hp])]
  rw [hl]
  dsimp only
  rw [if_neg (by norm_num), hd]
  dsimp only
  rw [if_neg (by simp [pyTruthy])]
  have hjt : jGetD (jGetD (Json.obj [("result", Json.obj [("tools", Json.arr ts)])])
      "result" (Json.obj [])) "tools" (Json.arr []) = Json.arr ts := rfl
  rw [hjt]
  cases hi : ingestTools bn cfg ts acc.1 with
  | mk staged ok => cases ok <;> simp [hi]

/-- C4 (amended): when two enabled upstreams produce the same `prefixedName`
during a refresh, the entry staged **later** in iteration order wins — the
dict assignment of the later (here: equal-priority, later insertion order)
upstream overwrites the earlier upstream's staged entry, which is present
after the earlier step and gone from the committed catalog. -/
theorem conflict_later_upstream_wins (ctx : Ctx) (n1 n2 : String) (c1 c2 : BackendConfig)
    (b1txt b2txt : String) (t1 t2 : Json) (x1 x2 k : String)
    (hb : ctx.backends = [(n1, c1), (n2, c2)])
    (he1 : c1.enabled = true) (he2 : c2.enabled = true)
    (hpr : c1.priority ≤ c2.priority)
    (hp1 : ctx.probe n1 = true) (hp2 : ctx.probe n2 = true)
    (hl1 : ctx.listResp n1 = .ok 200 b1txt) (hl2 : ctx.listResp n2 = .ok 200 b2txt)
    (hd1 : decodeBody ctx.loads c1.transport b1txt =
      .envelope (Json.obj [("result", Json.obj [("tools", Json.arr [t1])])]))
    (hd2 : decodeBody ctx.loads c2.transport b2txt =
      .envelope (Json.obj [("result", Json.obj [("tools", Json.arr [t2])])]))
    (ht1 : jGet t1 "name" = some (.str x1)) (ht2 : jGet t2 "name" = some (.str x2))
    (hk1 : c1.pfx ++ "_" ++ x1 = k) (hk2 : c2.pfx ++ "_" ++ x2 = k) :
    (∃ e1 : Entry, dictLookup k (refreshStep ctx ([], []) (n1, c1)).1 = some e1 ∧
      e1.backend = n1 ∧ e1.original_name = x1) ∧
    ∃ e2 : Entry, dictLookup k (refresh ctx).1 = some e2 ∧
      e2.backend = n2 ∧ e2.original_name = x2 := by
  have hlist : pySortedByPriority (ctx.backends.filter (fun b => b.2.enabled))
      = [(n1, c1), (n2, c2)] := by
    rw [hb]
    simp only [List.filter, he1, he2]
    simp only [pySortedByPriority, List.foldl, insortBackend]
    rw [if_pos hpr]
  have hstage1 : (refreshStep ctx ([], []) (n1, c1)).1 =
      (ingestTools n1 c1 [t1] ([] : List (String × Entry))).1 :=
    refreshStep_ok_entries ctx n1 c1 b1txt [t1] hp1 hl1 hd1 ([], [])
  constructor
  · rw [hstage1, ingestTools_single n1 c1 t1 x1 k ht1 hk1]
    exact ⟨_, dictLookup_dictInsert_self _ _ _, rfl, rfl⟩
  · have hfold : refresh ctx =
        refreshStep ctx (refreshStep ctx ([], []) (n1, c1)) (n2, c2) := by
      rw [refresh, hlist]
      rfl
    rw [hfold,
      refreshStep_ok_entries ctx n2 c2 b2txt [t2] hp2 hl2 hd2 _,
      ingestTools_single n2 c2 t2 x2 k ht2 hk2]
    exact ⟨_, dictLookup_dictInsert_self _ _ _, rfl, rfl⟩

/-- Witness for C4 (amended) in `c4Ctx`: `b1` stages `p_x` first, and the
committed catalog binds `p_x` to an entry of `b2`. -/
theorem conflict_later_upstream_wins_witness :
    (∃ e1 : Entry, dictLookup "p_x" (refreshStep c4Ctx ([], []) ("b1", c4Cfg1)).1 = some e1 ∧
      e1.backend = "b1" ∧ e1.original_name = "x") ∧
    ∃ e2 : Entry, dictLookup "p_x" (refresh c4Ctx).1 = some e2 ∧
      e2.backend = "b2" ∧ e2.original_name = "x" :=
  conflict_later_upstream_wins c4Ctx "b1" "b2" c4Cfg1 c4Cfg2 "T1" "T2"
    (Json.obj [("name", Json.str "x"), ("description", Json.str "from b1")])
    (Json.obj [("name", Json.str "x"), ("description", Json.str "from b2")])
    "x" "x" "p_x" rfl rfl rfl (by decide) rfl rfl rfl rfl rfl rfl rfl rfl rfl rfl

theorem jGet_some_obj (j : Json) (k : String) (v : Json) (h : jGet j k = some v) :
    ∃ kvs, j = Json.obj kvs := by
  cases j with
  | obj kvs => exact ⟨kvs, rfl⟩
  | null => simp [jGet] at h
  | bool b => simp [jGet] at h
  | num n => simp [jGet] at h
  | str s => simp [jGet] at h
  | arr xs => simp [jGet] at h

theorem pyTruthy_of_jGet_some (j : Json) (k : String) (v : Json) (h : jGet j k = some v) :
    pyTruthy j = true := by
  obtain ⟨kvs, rfl⟩ := jGet_some_obj j k v h
  cases kvs with
  | nil => simp [jGet, jGet.lookupKvs] at h
  | cons kv rest => simp [pyTruthy]

theorem pyIn_of_jGet_some (j : Json) (k : String) (v : Json) (h : jGet j k = some v) :
    pyIn k j = true := by
  obtain ⟨kvs, rfl⟩ := jGet_some_obj j k v h
  rw [jGet] at h
  rw [pyIn]
  induction kvs with
  | nil => simp [jGet.lookupKvs] at h
  | cons kv rest ih =>
      obtain ⟨k', v'⟩ := kv
      by_cases hk : k' = k
      · simp [hk]
      · rw [jGet.lookupKvs, if_neg hk] at h
        simpa [hk] using ih h

theorem interpretReply_result (env r : Json) (h : jGet env "result" = some r) :
    interpretReply (.envelope env) = r := by
  obtain ⟨kvs, rfl⟩ := jGet_some_obj env "result" r h
  rw [interpretReply]
  rw [if_pos (by rw [pyTruthy_of_jGet_some _ _ _ h, pyIn_of_jGet_some _ _ _ h]; rfl)]
  rw [h]
  rfl

/-- C1: for every `tools/call` that resolves through the catalog (not a
native tool), the gateway issues exactly one POST, to the entry's backend
URL, whose JSON-RPC body has `method == "tools/call"` and
`params == {name: the entry's original unprefixed name, arguments: the
client's arguments unchanged}`; and when the upstream envelope carries a
`result` member, that result is returned verbatim as the tool-call
envelope. -/
theorem dispatcher_soundness (ctx : Ctx) (st : GatewayState) (p : Json) (n : String)
    (args : Json) (e : Entry) (env r : Json)
    (hname : jGetD p "name" (.str "") = .str n)
    (hargs : jGetD p "arguments" (.obj []) = args)
    (hnat : n ∉ native_names)
    (hlk : dictLookup n st.tools = some e)
    (hdec : (call_backend_tool ctx e.backend_url e.original_name args e.transport).2 = .envelope env)
    (hres : jGet env "result" = some r) :
    (handle_tools_call ctx st p).1 =
      [Effect.posted e.backend_url (mkRpcBody "tools/call"
        (.obj [("name", .str e.original_name), ("arguments", args)]))] ∧
    jGet (mkRpcBody "tools/call" (.obj [("name", .str e.original_name), ("arguments", args)]))
      "method" = some (.str "tools/call") ∧
    jGet (mkRpcBody "tools/call" (.obj [("name", .str e.original_name), ("arguments", args)]))
      "params" = some (.obj [("name", .str e.original_name), ("arguments", args)]) ∧
    (handle_tools_call ctx st p).2 = r := by
  have hcall : handle_tools_call ctx st p =
      ((call_backend_tool ctx e.backend_url e.original_name args e.transport).1,
       interpretReply (call_backend_tool ctx e.backend_url e.original_name args e.transport).2) := by
    simp only [handle_tools_call]
    rw [hname, hargs]
    dsimp only
    rw [if_neg hnat, hlk]
  refine ⟨?_, rfl, rfl, ?_⟩
  · rw [hcall]
    rfl
  · rw [hcall]
    dsimp only
    rw [hdec]
    exact interpretReply_result env r hres

/-- Witness for C1: calling `b_x` in the one-entry world `c1Ctx`/`c1St`
issues exactly the expected POST and returns the upstream result verbatim. -/
theorem dispatcher_soundness_witness :
    (handle_tools_call c1Ctx c1St c1Params).1 =
      [Effect.posted "http://b/mcp" (mkRpcBody "tools/call"
        (.obj [("name", .str "x"), ("arguments", Json.obj [("k", Json.num 1)])]))] ∧
    jGet (mkRpcBody "tools/call" (.obj [("name", .str "x"),
      ("arguments", Json.obj [("k", Json.num 1)])])) "method" = some (.str "tools/call") ∧
    jGet (mkRpcBody "tools/call" (.obj [("name", .str "x"),
      ("arguments", Json.obj [("k", Json.num 1)])])) "params" =
      some (.obj [("name", .str "x"), ("arguments", Json.obj [("k", Json.num 1)])]) ∧
    (handle_tools_call c1Ctx c1St c1Params).2 = Json.obj [("content", Json.arr [])] :=
  dispatcher_soundness c1Ctx c1St c1Params "b_x" (Json.obj [("k", Json.num 1)]) c1Entry
    (Json.obj [("result", Json.obj [("content", Json.arr [])])])
    (Json.obj [("content", Json.arr [])])
    rfl rfl (by decide) rfl rfl rfl

/-- C3: a `tools/call` whose name is neither native nor in the catalog gets a
JSON-RPC **success** response (no `error` member) whose result envelope is
`{content: [{type: "text", text: "Error: Unknown tool '<name>'"}],
isError: true}`. -/
theorem unknown_tool_success_envelope (ctx : Ctx) (st : GatewayState) (now : Nat)
    (data p : Json) (n : String)
    (hm : jGetD data "method" (.str "") = .str "tools/call")
    (hp : jGetD data "params" (.obj []) = p)
    (hname : jGetD p "name" (.str "") = .str n)
    (hnat : n ∉ native_names)
    (hlk : dictLookup n st.tools = none) :
    (process_mcp_message ctx st now data).2.2 =
      Json.obj [("jsonrpc", .str "2.0"), ("id", jGetD data "id" (.num 1)),
        ("result", Json.obj [("content", .arr [Json.obj [("type", .str "text"),
          ("text", .str ("Error: Unknown tool '" ++ n ++ "'"))]]),
          ("isError", .bool true)])] ∧
    jGet (process_mcp_message ctx st now data).2.2 "error" = none := by
  have hcall : handle_tools_call ctx st p =
      ([], errorEnvelope ("Error: Unknown tool '" ++ n ++ "'")) := by
    simp only [handle_tools_call]
    rw [hname]
    dsimp only
    rw [if_neg hnat, hlk]
  have hproc : (process_mcp_message ctx st now data).2.2 =
      rpcSuccess (jGetD data "id" (.num 1))
        (errorEnvelope ("Error: Unknown tool '" ++ n ++ "'")) := by
    simp only [process_mcp_message]
    rw [hm]
    dsimp only
    rw [if_neg (by decide), if_neg (by decide), if_pos rfl, hp, hcall]
  constructor
  · rw [hproc]; rfl
  · rw [hproc]; rfl

/-- Witness for C3: calling the unregistered tool `nonexistent` against an
empty catalog yields the success envelope with `isError: true` and id 7. -/
theorem unknown_tool_success_envelope_witness :
    (process_mcp_message trivialCtx emptySt 0 c3Data).2.2 =
      Json.obj [("jsonrpc", .str "2.0"), ("id", jGetD c3Data "id" (.num 1)),
        ("result", Json.obj [("content", .arr [Json.obj [("type", .str "text"),
          ("text", .str ("Error: Unknown tool '" ++ "nonexistent" ++ "'"))]]),
          ("isError", .bool true)])] ∧
    jGet (process_mcp_message trivialCtx emptySt 0 c3Data).2.2 "error" = none :=
  unknown_tool_success_envelope trivialCtx emptySt 0 c3Data
    (Json.obj [("name", Json.str "nonexistent")]) "nonexistent"
    rfl rfl rfl (by decide) rfl

/-- C10: a request processed by the shared pipeline whose body has no `id`
member gets a response with `id` equal to the integer 1 (the `.get("id", 1)`
default), and a `notifications/initialized` notification in particular gets
`{jsonrpc: "2.0", id: 1, result: {}}`. -/
theorem notification_id_defaults_to_one (ctx : Ctx) (st : GatewayState) (now : Nat)
    (data : Json) (hid : jGet data "id" = none) :
    jGet (process_mcp_message ctx st now data).2.2 "id" = some (Json.num 1) ∧
    (jGetD data "method" (.str "") = .str "notifications/initialized" →
      (process_mcp_message ctx st now data).2.2 =
        Json.obj [("jsonrpc", .str "2.0"), ("id", Json.num 1), ("result", Json.obj [])]) := by
  have hrid : jGetD data "id" (.num 1) = Json.num 1 := by
    rw [jGetD, hid]
    rfl
  constructor
  · have hshape : ∃ rest, (process_mcp_message ctx st now data).2.2 =
        Json.obj (("jsonrpc", Json.str "2.0") :: ("id", jGetD data "id" (.num 1)) :: rest) := by
      simp only [process_mcp_message]
      cases hmv : jGetD data "method" (.str "") with
      | str m =>
          dsimp only
          by_cases h1 : m = "initialize"
          · rw [if_pos h1]; exact ⟨_, rfl⟩
          · rw [if_neg h1]
            by_cases h2 : m = "tools/list"
            · rw [if_pos h2]; exact ⟨_, rfl⟩
            · rw [if_neg h2]
              by_cases h3 : m = "tools/call"
              · rw [if_pos h3]; exact ⟨_, rfl⟩
              · rw [if_neg h3]
                by_cases h4 : m = "notifications/initialized"
                · rw [if_pos h4]; exact ⟨_, rfl⟩
                · rw [if_neg h4]; exact ⟨_, rfl⟩
      | null => exact ⟨_, rfl⟩
      | bool b => exact ⟨_, rfl⟩
      | num nn => exact ⟨_, rfl⟩
      | arr xs => exact ⟨_, rfl⟩
      | obj kvs => exact ⟨_, rfl⟩
    obtain ⟨rest, heq⟩ := hshape
    rw [heq, hrid]
    rfl
  · intro hm
    simp only [process_mcp_message]
    rw [hm]
    dsimp only
    rw [if_neg (by decide), if_neg (by decide), if_neg (by decide), if_pos rfl, hrid]
    rfl

/-- Witness for C10 at the `notifications/initialized` notification
`c10Data`. -/
theorem notification_id_defaults_to_one_witness :
    jGet (process_mcp_message trivialCtx emptySt 0 c10Data).2.2 "id" = some (Json.num 1) ∧
    (jGetD c10Data "method" (.str "") = .str "notifications/initialized" →
      (process_mcp_message trivialCtx emptySt 0 c10Data).2.2 =
        Json.obj [("jsonrpc", .str "2.0"), ("id", Json.num 1), ("result", Json.obj [])]) :=
  notification_id_defaults_to_one trivialCtx emptySt 0 c10Data rfl

theorem handle_native_tool_effects (ctx : Ctx) (st : GatewayState) (nn : String) (args : Json) :
    (handle_native_tool ctx st nn args).1 = [] ∨
    ∃ url body, (handle_native_tool ctx st nn args).1 = [Effect.posted url body] := by
  simp only [handle_native_tool]
  by_cases h1 : nn = "gateway_status"
  · rw [if_pos h1]; left; rfl
  · rw [if_neg h1]
    by_cases h2 : nn = "hivemind_write"
    · rw [if_pos h2]
      cases hsf : dictLookup "sm_query_snowflake" st.tools with
      | none => left; rfl
      | some tool_info => right; exact ⟨_, _, rfl⟩
    · rw [if_neg h2]
      by_cases h3 : nn = "hivemind_read"
      · rw [if_pos h3]
        cases hsf : dictLookup "sm_query_snowflake" st.tools with
        | none => left; rfl
        | some tool_info => right; exact ⟨_, _, rfl⟩
      · rw [if_neg h3]; left; rfl

theorem handle_tools_call_effects (ctx : Ctx) (st : GatewayState) (p : Json) :
    (handle_tools_call ctx st p).1 = [] ∨
    ∃ url body, (handle_tools_call ctx st p).1 = [Effect.posted url body] := by
  simp only [handle_tools_call]
  cases hmv : jGetD p "name" (.str "") with
  | str nn =>
      dsimp only
      by_cases hnn : nn ∈ native_names
      · rw [if_pos hnn]
        exact handle_native_tool_effects ctx st nn _
      · rw [if_neg hnn]
        cases hlk : dictLookup nn st.tools with
        | none => left; rfl
        | some tool_info => right; exact ⟨_, _, rfl⟩
  | null => left; rfl
  | bool b => left; rfl
  | num n => left; rfl
  | arr xs => left; rfl
  | obj kvs => left; rfl

/-- C5 counterexample: with the last refresh committed at instant 0 and the
clock at 86410 s (one day and ten seconds later, far beyond the 300 s TTL),
`needs_refresh()` returns **false** — the `timedelta.seconds` component has
wrapped past the day boundary; and a `tools/call` triggers no refresh at all:
its effect list (for an unknown tool here) is empty, with no
`Effect.refreshed`. -/
theorem refresh_ttl_claim_refuted :
    needs_refresh (some 0) 86410 = false ∧
    86410 - 0 > refresh_interval ∧
    (handle_tools_call trivialCtx c5StaleSt (Json.obj [("name", Json.str "ghost")])).1 = [] := by
  refine ⟨rfl, by norm_num [refresh_interval], rfl⟩

/-- C5 (amended): a refresh is never run by `tools/call`; `tools/list` runs
one exactly when `needs_refresh()` holds; and `needs_refresh()` is true when
no refresh ever ran, else exactly when `(now - lastRefresh) mod 86400`
(the `timedelta.seconds` component, wrapping at one day) exceeds the 300 s
TTL. -/
theorem refresh_trigger_behavior :
    (∀ now : Nat, needs_refresh none now = true) ∧
    (∀ t now : Nat, needs_refresh (some t) now = decide ((now - t) % 86400 > 300)) ∧
    (∀ (ctx : Ctx) (st : GatewayState) (now : Nat),
      (handle_tools_list ctx st now).2.1 =
        if needs_refresh st.last_refresh now then [Effect.refreshed] else []) ∧
    (∀ (ctx : Ctx) (st : GatewayState) (p : Json),
      Effect.refreshed ∉ (handle_tools_call ctx st p).1) := by
  refine ⟨fun now => rfl, fun t now => rfl, ?_, ?_⟩
  · intro ctx st now
    simp only [handle_tools_list]
    by_cases h : needs_refresh st.last_refresh now = true
    · rw [if_pos h, if_pos h]
    · rw [if_neg h, if_neg h]
  · intro ctx st p
    rcases handle_tools_call_effects ctx st p with h | ⟨url, body, h⟩
    · rw [h]; simp
    · rw [h]; simp

/-- C7 exhibit (the claim is right, the code is wrong): the `hivemind_read`
`category` filter is interpolated with **no** escaping, so the argument value
alters the statement's structure — the single-filter arguments
`{category: "x' AND SOURCE = 'y"}` produce exactly the same SQL text as the
two-filter arguments `{category: "x", source: "y"}`; and `hivemind_write`
interpolates `source` raw, so `O'Brien` leaves an unbalanced quote in the
statement.  (Only `summary` and the serialized `details` are escaped.) -/
theorem hivemind_sql_injection_exhibit :
    hivemind_read_sql c7ReadArgsA = hivemind_read_sql c7ReadArgsB ∧
    jGet c7ReadArgsA "source" = none ∧
    jGet c7ReadArgsB "source" = some (Json.str "y") ∧
    hivemind_write_sql c7WriteArgs =
      "INSERT INTO SOVEREIGN_MIND.RAW.HIVE_MIND (SOURCE, CATEGORY, WORKSTREAM, SUMMARY, DETAILS, PRIORITY, STATUS, TAGS) VALUES ('O'Brien', 'CONTEXT', 'GENERAL', 'note', PARSE_JSON('NULL'), 'MEDIUM', 'ACTIVE', PARSE_JSON('NULL'))" :=
  ⟨rfl, rfl, rfl, rfl⟩

set_option maxRecDepth 4096

/-- C8 counterexample: the queues `sse_connect` creates are **unbounded** —
`queue.Queue()` is constructed with no `maxsize` — so 257 successive
enqueues leave a queue of length 257 with the oldest entry still at the
front: nothing is capped near 256 and nothing is dropped. -/
theorem bounded_queue_refuted :
    overfullQueue.length = 257 ∧ overfullQueue.head? = some 0 := by
  constructor
  · rfl
  · rfl

/-- C8 (amended): a push session's outbound queue is unbounded: `put` appends
one entry, drops none (every queued entry is still there afterwards) and
never blocks, so `sse_message` always completes, acknowledging
`{status: "ok"}` and appending the pipeline's response to the session's
queue. -/
theorem queue_unbounded_no_drop :
    (∀ (q : List Json) (x : Json), (queue_put q x).length = q.length + 1 ∧
      ∀ y ∈ q, y ∈ queue_put q x) ∧
    (∀ (ctx : Ctx) (st : GatewayState) (now : Nat)
        (sessions : List (String × List Json)) (sid : String) (data : Json)
        (q : List Json), dictLookup sid sessions = some q →
      (sse_message ctx st now sessions sid data).2.2 = Json.obj [("status", Json.str "ok")] ∧
      dictLookup sid (sse_message ctx st now sessions sid data).2.1 =
        some (queue_put q (process_mcp_message ctx st now data).2.2)) := by
  constructor
  · intro q x
    constructor
    · simp [queue_put]
    · intro y hy
      rw [queue_put]
      exact List.mem_append_left _ hy
  · intro ctx st now sessions sid data q hq
    simp only [sse_message]
    rw [hq]
    exact ⟨rfl, dictLookup_dictInsert_self _ _ _⟩

/-- Witness for C8 (amended) at a fresh session `s` with an empty queue. -/
theorem queue_unbounded_no_drop_witness :
    (sse_message trivialCtx emptySt 0 [("s", [])] "s" c10Data).2.2 =
      Json.obj [("status", Json.str "ok")] ∧
    dictLookup "s" (sse_message trivialCtx emptySt 0 [("s", [])] "s" c10Data).2.1 =
      some (queue_put [] (process_mcp_message trivialCtx emptySt 0 c10Data).2.2) :=
  queue_unbounded_no_drop.2 trivialCtx emptySt 0 [("s", [])] "s" c10Data [] rfl

/-- C9 counterexample: from two concurrent stale requests, the interleaving
check-then-refresh (the only guard in `handle_tools_list` is
`needs_refresh()`; there is no singleflight barrier) reaches a state with
**two** refreshes in flight: the second requester does not join the first's
refresh, it starts its own. -/
theorem singleflight_refuted :
    RStep c9s0 c9s1 ∧ RStep c9s1 c9s2 ∧ c9s2.inFlight = 2 := by
  refine ⟨?_, ?_, rfl⟩
  · exact RStep.startRefresh c9s0 0 rfl rfl
  · exact RStep.startRefresh c9s1 1 rfl rfl

theorem RStep_cons (p : RPc) (s t : RSys) (h : RStep s t) :
    RStep ⟨s.lastRefresh, s.now, p :: s.threads, s.inFlight⟩
          ⟨t.lastRefresh, t.now, p :: t.threads, t.inFlight⟩ := by
  cases h with
  | startRefresh i hpc hneed =>
      exact RStep.startRefresh ⟨s.lastRefresh, s.now, p :: s.threads, s.inFlight⟩ (i+1) hpc hneed
  | serveCached i hpc hneed =>
      exact RStep.serveCached ⟨s.lastRefresh, s.now, p :: s.threads, s.inFlight⟩ (i+1) hpc hneed
  | finishRefresh i hpc =>
      exact RStep.finishRefresh ⟨s.lastRefresh, s.now, p :: s.threads, s.inFlight⟩ (i+1) hpc

theorem RReach_cons (p : RPc) (s t : RSys) (h : RReach s t) :
    RReach ⟨s.lastRefresh, s.now, p :: s.threads, s.inFlight⟩
           ⟨t.lastRefresh, t.now, p :: t.threads, t.inFlight⟩ := by
  induction h with
  | refl => exact Relation.ReflTransGen.refl
  | tail hab hbc ih => exact Relation.ReflTransGen.tail ih (RStep_cons p _ _ hbc)

/-- C9 (amended): the code has no refresh singleflight: a request that
observes `needs_refresh()` starts its own refresh regardless of refreshes
already in flight, so from `m` concurrent stale requests the system reaches
a state with all `m` refreshes in flight simultaneously. -/
theorem concurrent_refreshes_reachable (m now f : Nat) :
    RReach ⟨none, now, List.replicate m .idle, f⟩
           ⟨none, now, List.replicate m .refreshing, f + m⟩ := by
  induction m generalizing f with
  | zero => exact Relation.ReflTransGen.refl
  | succ m ih =>
      have hstep : RStep ⟨none, now, List.replicate (m+1) .idle, f⟩
          ⟨none, now, .refreshing :: List.replicate m .idle, f + 1⟩ :=
        RStep.startRefresh ⟨none, now, List.replicate (m+1) .idle, f⟩ 0 rfl rfl
      have hrest := RReach_cons .refreshing _ _ (ih (f + 1))
      have hall : RReach ⟨none, now, List.replicate (m+1) .idle, f⟩
          ⟨none, now, .refreshing :: List.replicate m .refreshing, f + 1 + m⟩ :=
        Relation.ReflTransGen.head hstep hrest
      have heq : f + 1 + m = f + (m + 1) := by omega
      rw [heq] at hall
      exact hall
